import Mathlib

/-!
Shallow embedding of the PlanMyWeek activity-ranking engine
(`backend/src/services/activity-ranking-service.ts`) in Lean 4.

Modelling conventions:
* JavaScript numbers are modelled as exact rationals (`ℚ`); all the scoring
  arithmetic of the source is closed under `ℚ`.
* `Math.round` rounds half away from zero towards positive infinity on the
  values that occur here; it is modelled as `⌊x + 1/2⌋`.
* The mutable `reasons: string[]` accumulator of the source is modelled by
  letting every scorer return the pair of its numeric score and the list of
  reason strings it pushes, concatenated by the day aggregator in call order.
* Numeric formatting inside reason strings (`toFixed`) is abstracted to
  `toString` on `ℚ`; the literal English text of every reason is kept.
* The impure `new Date()` fallback used for the result period when the
  weather list is empty is modelled by an explicit `now : ℚ` parameter.
* `Array.prototype.sort` is stable; it is modelled by `List.mergeSort` with
  the relation induced by the comparator `(a, b) => b.overallScore - a.overallScore`.
* The optional `requestedActivities` parameter is an `Option (List ActivityKind)`:
  in JavaScript an empty array is truthy, so `requestedActivities || defaults`
  substitutes the default list only when the argument is absent.
-/

namespace PlanMyWeek

/-- JavaScript `Math.round` on the rationals: round half towards +∞. -/
def jsRound (x : ℚ) : ℚ := (⌊x + 1/2⌋ : ℤ)

/-- `Math.round(x * 100) / 100`: round to two decimal places. -/
def round2 (x : ℚ) : ℚ := jsRound (x * 100) / 100

/-- `Math.round` producing an integer, for the compass-index computation. -/
def jsRoundInt (x : ℚ) : ℤ := ⌊x + 1/2⌋

/-- The four activity kinds of `types/activity.ts`. -/
inductive ActivityKind where
  | SKIING
  | SURFING
  | OUTDOOR_SIGHTSEEING
  | INDOOR_SIGHTSEEING
  deriving DecidableEq, Repr

/-- The marine block of `DailyWeatherData` (`weather-service.ts`). -/
structure MarineData where
  waveHeightMax : ℚ
  wavePeriod : ℚ
  waveDirection : ℚ
  swellWaveHeight : ℚ
  swellWavePeriod : ℚ
  swellWaveDirection : ℚ
  windWaveHeight : ℚ
  windWavePeriod : ℚ
  windWaveDirection : ℚ
  deriving DecidableEq, Repr

/-- One forecast day (`weather-service.ts`, `DailyWeatherData`).
The `date` is a timestamp modelled as a rational. -/
structure DailyWeatherData where
  date : ℚ
  minTempC : ℚ
  maxTempC : ℚ
  meanTempC : ℚ
  snowfallCm : ℚ
  precipitationMm : ℚ
  windSpeedKph : ℚ
  windGustKph : ℚ
  waveHeightM : Option ℚ
  cloudCoverPct : ℚ
  sunshineHours : ℚ
  humidityPct : ℚ
  pressureMsl : ℚ
  freezeLevelMeters : Option ℚ
  marineData : Option MarineData
  deriving DecidableEq, Repr

/-- Static per-activity weather criteria (`ActivityWeatherCriteria`). -/
structure ActivityWeatherCriteria where
  idealTempRange : ℚ × ℚ
  acceptableTempRange : ℚ × ℚ
  maxPrecipitation : ℚ
  maxWindSpeed : ℚ
  maxWindGust : ℚ
  idealCloudCover : ℚ × ℚ
  minSunshineHours : ℚ
  requiresSnow : Bool := false
  requiresWaves : Bool := false
  prefersDryConditions : Bool := false
  indoorFallback : Bool := false
  deriving DecidableEq, Repr

/-- The `ACTIVITY_CRITERIA` table. -/
def ACTIVITY_CRITERIA : ActivityKind → ActivityWeatherCriteria
  | ActivityKind.SKIING =>
    { idealTempRange := (-10, 2)
      acceptableTempRange := (-20, 8)
      maxPrecipitation := 15
      maxWindSpeed := 25
      maxWindGust := 40
      idealCloudCover := (30, 80)
      minSunshineHours := 2
      requiresSnow := true
      prefersDryConditions := false }
  | ActivityKind.SURFING =>
    { idealTempRange := (15, 28)
      acceptableTempRange := (10, 35)
      maxPrecipitation := 5
      maxWindSpeed := 30
      maxWindGust := 45
      idealCloudCover := (0, 50)
      minSunshineHours := 4
      requiresWaves := true
      prefersDryConditions := true }
  | ActivityKind.OUTDOOR_SIGHTSEEING =>
    { idealTempRange := (15, 25)
      acceptableTempRange := (5, 30)
      maxPrecipitation := 2
      maxWindSpeed := 20
      maxWindGust := 35
      idealCloudCover := (0, 40)
      minSunshineHours := 6
      prefersDryConditions := true }
  | ActivityKind.INDOOR_SIGHTSEEING =>
    { idealTempRange := (10, 30)
      acceptableTempRange := (-5, 40)
      maxPrecipitation := 50
      maxWindSpeed := 50
      maxWindGust := 80
      idealCloudCover := (0, 100)
      minSunshineHours := 0
      indoorFallback := true }

/-- `Object.keys(ACTIVITY_CRITERIA)` in insertion order. -/
def activityKeys : List ActivityKind :=
  [ActivityKind.SKIING, ActivityKind.SURFING,
   ActivityKind.OUTDOOR_SIGHTSEEING, ActivityKind.INDOOR_SIGHTSEEING]

/-- `scoreTemperature`: returns the score and the one reason it pushes. -/
def scoreTemperature (temp : ℚ) (criteria : ActivityWeatherCriteria) :
    ℚ × List String :=
  let idealMin := criteria.idealTempRange.1
  let idealMax := criteria.idealTempRange.2
  let acceptableMin := criteria.acceptableTempRange.1
  let acceptableMax := criteria.acceptableTempRange.2
  if temp ≥ idealMin ∧ temp ≤ idealMax then
    (100, ["Ideal temperature: " ++ toString temp ++ "C"])
  else if temp ≥ acceptableMin ∧ temp ≤ acceptableMax then
    let distanceFromIdeal := min |temp - idealMin| |temp - idealMax|
    let maxDistance := max (idealMin - acceptableMin) (acceptableMax - idealMax)
    (100 - (distanceFromIdeal / maxDistance) * 30,
     ["Acceptable temperature: " ++ toString temp ++ "C"])
  else
    (max 0 (40 - |temp - (idealMin + idealMax) / 2| * 2),
     ["Poor temperature: " ++ toString temp ++ "C (outside acceptable range)"])

/-- `scorePrecipitation`. -/
def scorePrecipitation (precipitation : ℚ) (criteria : ActivityWeatherCriteria) :
    ℚ × List String :=
  if precipitation ≤ criteria.maxPrecipitation / 4 then
    (100,
     if precipitation > 0 then
       ["Light precipitation: " ++ toString precipitation ++ "mm"]
     else [])
  else if precipitation ≤ criteria.maxPrecipitation then
    (100 -
       ((precipitation - criteria.maxPrecipitation / 4) /
         (criteria.maxPrecipitation * 0.75)) * 50,
     ["Moderate precipitation: " ++ toString precipitation ++ "mm"])
  else
    (max 0 (30 - (precipitation - criteria.maxPrecipitation) * 2),
     ["Heavy precipitation: " ++ toString precipitation ++ "mm"])

/-- The 16-point compass rose used by `scoreMarineWind`. -/
def directionNames : List String :=
  ["N", "NNE", "NE", "ENE", "E", "ESE", "SE", "SSE",
   "S", "SSW", "SW", "WSW", "W", "WNW", "NW", "NNW"]

/-- `scoreMarineWind`: marine wind scoring for surfing. -/
def scoreMarineWind (marineData : MarineData)
    (criteria : ActivityWeatherCriteria) : ℚ × List String :=
  let windWaveHeight := marineData.windWaveHeight
  let windWaveDirection := marineData.windWaveDirection
  let base : ℚ × List String :=
    if windWaveHeight > 2 then
      (100 - (windWaveHeight - 2) * 15,
       ["Strong marine winds: " ++ toString windWaveHeight ++ "m wind waves"])
    else if windWaveHeight > 1 then
      (100 - (windWaveHeight - 1) * 10,
       ["Moderate marine winds: " ++ toString windWaveHeight ++ "m wind waves"])
    else if windWaveHeight > 0.5 then
      (100 - (windWaveHeight - 0.5) * 5,
       ["Light marine winds: " ++ toString windWaveHeight ++ "m wind waves"])
    else
      (100,
       ["Calm marine conditions: " ++ toString windWaveHeight ++ "m wind waves"])
  let directionReasons : List String :=
    if windWaveDirection ≥ 0 ∧ windWaveDirection ≤ 360 then
      let directionIndex := (jsRoundInt (windWaveDirection / 22.5)) % 16
      ["Wind direction: " ++ directionNames.getD directionIndex.toNat (r"N") ++
        " (" ++ toString windWaveDirection ++ ")"]
    else []
  (max 0 base.1, base.2 ++ directionReasons)

/-- `scoreWind`: land mode, or marine mode when marine data is passed. -/
def scoreWind (windSpeed windGust : ℚ) (criteria : ActivityWeatherCriteria)
    (marineData : Option MarineData) : ℚ × List String :=
  match marineData with
  | some m => scoreMarineWind m criteria
  | none =>
    if windSpeed > criteria.maxWindSpeed then
      (max 0 (100 - (windSpeed - criteria.maxWindSpeed) * 3),
       ["High wind speed: " ++ toString windSpeed ++ " km/h"])
    else if windGust > criteria.maxWindGust then
      (max 0 (100 - (windGust - criteria.maxWindGust) * 2),
       ["Strong wind gusts: " ++ toString windGust ++ " km/h"])
    else if windSpeed ≤ criteria.maxWindSpeed / 2 then
      (100, ["Calm wind conditions: " ++ toString windSpeed ++ " km/h"])
    else
      (100 -
        ((windSpeed - criteria.maxWindSpeed / 2) / (criteria.maxWindSpeed / 2)) * 20,
       [])

/-- `scoreSunshine`. -/
def scoreSunshine (cloudCover sunshineHours : ℚ)
    (criteria : ActivityWeatherCriteria) : ℚ × List String :=
  let sunPart : ℚ × List String :=
    if sunshineHours < criteria.minSunshineHours then
      ((criteria.minSunshineHours - sunshineHours) * 15,
       ["Limited sunshine: " ++ toString sunshineHours ++ "h (need " ++
         toString criteria.minSunshineHours ++ "h)"])
    else
      (0, ["Good sunshine: " ++ toString sunshineHours ++ "h"])
  let idealCloudMin := criteria.idealCloudCover.1
  let idealCloudMax := criteria.idealCloudCover.2
  let cloudPart : ℚ × List String :=
    if cloudCover < idealCloudMin ∨ cloudCover > idealCloudMax then
      (min |cloudCover - idealCloudMin| |cloudCover - idealCloudMax| * 0.5,
       if cloudCover > 80 then ["Very cloudy: " ++ toString cloudCover ++ "%"]
       else if cloudCover < 20 then ["Very clear: " ++ toString cloudCover ++ "%"]
       else [])
    else (0, [])
  (max 0 (100 - sunPart.1 - cloudPart.1), sunPart.2 ++ cloudPart.2)

/-- `scoreWaveHeight`: piecewise wave-height bands for surfing, in the
branch order of the source. -/
def scoreWaveHeight (waveHeight : ℚ) : ℚ × List String :=
  if waveHeight ≥ 2.5 ∧ waveHeight ≤ 4 then
    (100, ["Excellent waves: " ++ toString waveHeight ++ "m"])
  else if waveHeight ≥ 1.5 ∧ waveHeight ≤ 6 then
    (85, ["Good waves: " ++ toString waveHeight ++ "m"])
  else if waveHeight ≥ 0.8 ∧ waveHeight ≤ 8 then
    (70, ["Surfable waves: " ++ toString waveHeight ++ "m"])
  else if waveHeight ≥ 0.5 then
    (40, ["Small waves: " ++ toString waveHeight ++ "m"])
  else if waveHeight > 8 then
    (20, ["Dangerous large waves: " ++ toString waveHeight ++ "m"])
  else
    (10, ["Flat conditions: " ++ toString waveHeight ++ "m"])

/-- `scoreWavePeriod`. -/
def scoreWavePeriod (wavePeriod : ℚ) : ℚ × List String :=
  if wavePeriod ≥ 12 then
    (100, ["Long period swell: " ++ toString wavePeriod ++ "s - excellent quality"])
  else if wavePeriod ≥ 8 then
    (85, ["Good wave period: " ++ toString wavePeriod ++ "s"])
  else if wavePeriod ≥ 6 then
    (70, ["Moderate wave period: " ++ toString wavePeriod ++ "s"])
  else if wavePeriod ≥ 4 then
    (50, ["Short wave period: " ++ toString wavePeriod ++ "s - choppy conditions"])
  else
    (30, ["Very short period: " ++ toString wavePeriod ++ "s - poor quality"])

/-- `scoreSwellConditions`. -/
def scoreSwellConditions (marine : MarineData) : ℚ × List String :=
  let swellHeight := marine.swellWaveHeight
  let totalWaves := marine.waveHeightMax
  if swellHeight > 0 ∧ totalWaves > 0 then
    let swellRatio := swellHeight / totalWaves
    if swellRatio > 0.7 then
      (100, ["Clean swell conditions: " ++ toString (swellRatio * 100) ++ "% swell"])
    else if swellRatio > 0.4 then
      (75, ["Mixed swell and wind waves: " ++ toString (swellRatio * 100) ++ "% swell"])
    else
      (60,
       ["Mostly wind waves: " ++ toString (swellRatio * 100) ++
         "% swell - choppier conditions"])
  else
    (80, [])

/-- `scoreWindWaveRelation`. -/
def scoreWindWaveRelation (marine : MarineData) : ℚ × List String :=
  let windWaveHeight := marine.windWaveHeight
  if windWaveHeight ≤ 0.5 then
    (100,
     ["Light marine winds: " ++ toString windWaveHeight ++ "m wind waves - clean conditions"])
  else if windWaveHeight ≤ 1 then
    (85,
     ["Moderate marine winds: " ++ toString windWaveHeight ++ "m wind waves - slightly textured"])
  else if windWaveHeight ≤ 1.5 then
    (60,
     ["Strong marine winds: " ++ toString windWaveHeight ++ "m wind waves - choppy surface"])
  else
    (30,
     ["Very strong marine winds: " ++ toString windWaveHeight ++ "m wind waves - blown out conditions"])

/-- `scoreSurfingConditions`: marine data, then `waveHeightM` fallback,
then a wind heuristic; a +5 bonus (capped at 100) only with marine data. -/
def scoreSurfingConditions (weather : DailyWeatherData) : ℚ × List String :=
  let body : ℚ × List String :=
    match weather.marineData with
    | some marine =>
      let wave := scoreWaveHeight marine.waveHeightMax
      let periodScore := scoreWavePeriod marine.wavePeriod
      let swell := scoreSwellConditions marine
      let windWave := scoreWindWaveRelation marine
      let score :=
        min (min (min (min 100 wave.1) periodScore.1) swell.1) windWave.1
      (min 100 (score + 5),
       wave.2 ++ periodScore.2 ++ swell.2 ++ windWave.2 ++
         ["Detailed marine forecast available"])
    | none =>
      match weather.waveHeightM with
      | some wh =>
        if wh > 1.5 then (90, ["Good waves: " ++ toString wh ++ "m"])
        else if wh > 0.8 then (70, ["Moderate waves: " ++ toString wh ++ "m"])
        else if wh > 0.3 then (40, ["Small waves: " ++ toString wh ++ "m"])
        else (20, ["Very small waves: " ++ toString wh ++ "m"])
      | none =>
        if weather.windSpeedKph > 20 then
          (60,
           ["Strong wind may generate waves: " ++ toString weather.windSpeedKph ++ " km/h"])
        else if weather.windSpeedKph > 10 then
          (40,
           ["Moderate wind may generate small waves: " ++ toString weather.windSpeedKph ++ " km/h"])
        else
          (20,
           ["Low wind - likely flat conditions: " ++ toString weather.windSpeedKph ++ " km/h"])
  (max 0 body.1, body.2)

/-- `scoreSpecialRequirements`. -/
def scoreSpecialRequirements (activity : ActivityKind)
    (weather : DailyWeatherData) (location : Option (ℚ × ℚ)) :
    ℚ × List String :=
  match activity with
  | ActivityKind.SKIING =>
    if weather.snowfallCm > 5 then
      (100, ["Fresh snow: " ++ toString weather.snowfallCm ++ "cm"])
    else if weather.snowfallCm > 0 then
      (80, ["Light snow: " ++ toString weather.snowfallCm ++ "cm"])
    else if weather.meanTempC < 0 ∧ weather.precipitationMm > 0 then
      (60, ["Cold with precipitation - potential for snow"])
    else if weather.meanTempC < 5 then
      (40, ["Cold weather - may have existing snow"])
    else
      (20, ["No snow and warm weather"])
  | ActivityKind.SURFING => scoreSurfingConditions weather
  | ActivityKind.INDOOR_SIGHTSEEING =>
    if weather.precipitationMm > 10 ∨ weather.windSpeedKph > 30 then
      (100, ["Poor outdoor conditions - perfect for indoor activities"])
    else if weather.precipitationMm > 5 ∨ weather.cloudCoverPct > 80 then
      (85, ["Overcast conditions - good for indoor activities"])
    else
      (100, [])
  | ActivityKind.OUTDOOR_SIGHTSEEING => (100, [])

/-- Per-day computed score (`DailyActivityScore`). -/
structure DailyActivityScore where
  date : ℚ
  score : ℚ
  reasons : List String
  deriving DecidableEq, Repr

/-- `calculateDailyScore`: min of the five sub-scores starting from 100,
clamped to [0, 100], rounded to two decimals; reasons concatenated in call
order and filtered for non-empty strings. -/
def calculateDailyScore (activity : ActivityKind)
    (weather : DailyWeatherData) (location : Option (ℚ × ℚ)) :
    DailyActivityScore :=
  let criteria := ACTIVITY_CRITERIA activity
  let tempScore := scoreTemperature weather.meanTempC criteria
  let precipScore := scorePrecipitation weather.precipitationMm criteria
  let windScore :=
    scoreWind weather.windSpeedKph weather.windGustKph criteria
      (if activity = ActivityKind.SURFING then weather.marineData else none)
  let sunScore := scoreSunshine weather.cloudCoverPct weather.sunshineHours criteria
  let specialScore := scoreSpecialRequirements activity weather location
  let score :=
    min (min (min (min (min 100 tempScore.1) precipScore.1) windScore.1)
      sunScore.1) specialScore.1
  let bounded := max 0 (min 100 score)
  let reasons :=
    tempScore.2 ++ precipScore.2 ++ windScore.2 ++ sunScore.2 ++ specialScore.2
  { date := weather.date
    score := round2 bounded
    reasons := reasons.filter (fun reason => decide (reason.length > 0)) }

/-- `calculateOverallScore`: mean of daily scores rounded to two decimals,
0 for the empty list. -/
def calculateOverallScore (dailyScores : List DailyActivityScore) : ℚ :=
  if dailyScores.length = 0 then 0
  else
    let totalScore := dailyScores.foldl (fun sum day => sum + day.score) 0
    round2 (totalScore / dailyScores.length)

/-- Per-activity ranking entry (`ActivityRanking`). -/
structure ActivityRanking where
  activity : ActivityKind
  overallScore : ℚ
  daily : List DailyActivityScore
  deriving DecidableEq, Repr

/-- Top-level result (`RankedActivitiesResult`); the period is a pair of
timestamps. -/
structure RankedActivitiesResult where
  activities : List ActivityRanking
  period : ℚ × ℚ
  location : ℚ × ℚ
  deriving DecidableEq, Repr

/-- Build one activity's ranking entry (the body of the `map` in
`rankActivities`). -/
def buildRanking (weatherData : List DailyWeatherData)
    (location : Option (ℚ × ℚ)) (activity : ActivityKind) : ActivityRanking :=
  let dailyScores :=
    weatherData.map (fun dayWeather => calculateDailyScore activity dayWeather location)
  { activity := activity
    overallScore := calculateOverallScore dailyScores
    daily := dailyScores }

/-- The sort relation induced by the comparator
`(a, b) => b.overallScore - a.overallScore`. -/
def rankingLE (a b : ActivityRanking) : Bool :=
  decide (b.overallScore ≤ a.overallScore)

/-- `rankActivities`. `now` models the wall-clock `new Date()` read used as
the period fallback when the weather list is empty. -/
def rankActivities (weatherData : List DailyWeatherData)
    (requestedActivities : Option (List ActivityKind))
    (location : Option (ℚ × ℚ)) (now : ℚ) : RankedActivitiesResult :=
  let activities := requestedActivities.getD activityKeys
  let rankings := activities.map (buildRanking weatherData location)
  { activities := rankings.mergeSort rankingLE
    period :=
      (((weatherData.head?).map (fun d => d.date)).getD now,
       ((weatherData.getLast?).map (fun d => d.date)).getD now)
    location := location.getD (0, 0) }

/-- A concrete benign winter forecast day used in witness instantiations. -/
def exDay : DailyWeatherData :=
  { date := 100
    minTempC := -8
    maxTempC := 0
    meanTempC := -5
    snowfallCm := 10
    precipitationMm := 0
    windSpeedKph := 5
    windGustKph := 10
    waveHeightM := none
    cloudCoverPct := 50
    sunshineHours := 8
    humidityPct := 50
    pressureMsl := 1013
    freezeLevelMeters := none
    marineData := none }

/-- Like `exDay` but with an extreme wind gust: all fields of the skiing
scenario of the spec are met, yet the gust drives the wind score to 0. -/
def exDayGusty : DailyWeatherData :=
  { exDay with windGustKph := 100 }

/-- Like `exDay` but with mildly adverse remaining fields that still keep
every sub-score at 85 or above. -/
def exDayMild : DailyWeatherData :=
  { exDay with
      windGustKph := 45
      precipitationMm := 5
      sunshineHours := 3/2
      cloudCoverPct := 85 }

/-- A degenerate criteria record whose ideal range equals its acceptable
range, for the division-by-zero claim about the temperature scorer. -/
def exCriteriaDegenerate : ActivityWeatherCriteria :=
  { idealTempRange := (0, 10)
    acceptableTempRange := (0, 10)
    maxPrecipitation := 10
    maxWindSpeed := 20
    maxWindGust := 30
    idealCloudCover := (0, 50)
    minSunshineHours := 2 }

/-! ### Helper lemmas -/

/-- `round2` never drops below an integer lower bound of its argument. -/
theorem le_round2 (n : ℤ) (x : ℚ) (h : (n : ℚ) ≤ x) : (n : ℚ) ≤ round2 x := by
  unfold round2 jsRound
  rw [le_div_iff₀ (by norm_num : (0:ℚ) < 100)]
  have hfl : (n * 100 : ℤ) ≤ ⌊x * 100 + 1/2⌋ := by
    rw [Int.le_floor]
    push_cast
    linarith
  exact_mod_cast hfl

/-- `round2` never exceeds an integer upper bound of its argument. -/
theorem round2_le (n : ℤ) (x : ℚ) (h : x ≤ n) : round2 x ≤ n := by
  unfold round2 jsRound
  rw [div_le_iff₀ (by norm_num : (0:ℚ) < 100)]
  have hfl : ⌊x * 100 + 1/2⌋ ≤ n * 100 := by
    rw [Int.floor_le_iff]
    push_cast
    linarith
  exact_mod_cast hfl

/-- Folding the starting score 100 into the five-way minimum is redundant
once the result is clamped from above by 100. -/
theorem min100_chain (t p w su sp : ℚ) :
    min 100 (min (min (min (min (min 100 t) p) w) su) sp) =
      min 100 (min (min (min (min t p) w) su) sp) := by
  have h : min (min (min (min (min 100 t) p) w) su) sp =
      min 100 (min (min (min (min t p) w) su) sp) := by ac_rfl
  rw [h, ← min_assoc, min_self]

/-- The `reduce`-style fold of `calculateOverallScore` is the list sum. -/
theorem foldl_add_score (l : List DailyActivityScore) (acc : ℚ) :
    l.foldl (fun sum day => sum + day.score) acc =
      acc + (l.map (fun d => d.score)).sum := by
  induction l generalizing acc with
  | nil => simp
  | cons d t ih => simp [ih, add_assoc]

/-- `calculateOverallScore` is the rounded mean of the daily scores. -/
theorem calculateOverallScore_eq (ds : List DailyActivityScore) :
    calculateOverallScore ds =
      if ds.length = 0 then 0
      else round2 ((ds.map (fun d => d.score)).sum / ds.length) := by
  unfold calculateOverallScore
  split
  · rfl
  · rw [foldl_add_score, zero_add]

/-- Sum bounds for a list of scores that each lie in `[0, 100]`. -/
theorem sum_scores_bounds (l : List DailyActivityScore)
    (h : ∀ d ∈ l, 0 ≤ d.score ∧ d.score ≤ 100) :
    0 ≤ (l.map (fun d => d.score)).sum ∧
      (l.map (fun d => d.score)).sum ≤ 100 * l.length := by
  induction l with
  | nil => simp
  | cons d t ih =>
    obtain ⟨h1, h2⟩ := h d (by simp)
    obtain ⟨ih1, ih2⟩ := ih (fun x hx => h x (by simp [hx]))
    simp only [List.map_cons, List.sum_cons, List.length_cons]
    constructor
    · linarith
    · push_cast
      linarith

/-- The clamp-and-round of the day aggregator stays within `[0, 100]`. -/
theorem round2_clamp_bounds (x : ℚ) :
    0 ≤ round2 (max 0 (min 100 x)) ∧ round2 (max 0 (min 100 x)) ≤ 100 := by
  constructor
  · have h0 := le_round2 0 (max 0 (min 100 x)) (by push_cast; exact le_max_left _ _)
    exact_mod_cast h0
  · have h1 := round2_le 100 (max 0 (min 100 x))
      (by push_cast; exact max_le (by norm_num) (min_le_left _ _))
    exact_mod_cast h1

/-- The day score is the rounded clamp of the minimum starting at 100. -/
theorem calculateDailyScore_score (activity : ActivityKind)
    (weather : DailyWeatherData) (location : Option (ℚ × ℚ)) :
    (calculateDailyScore activity weather location).score =
      round2 (max 0 (min 100
        (min (min (min (min (min 100
          (scoreTemperature weather.meanTempC (ACTIVITY_CRITERIA activity)).1)
          (scorePrecipitation weather.precipitationMm (ACTIVITY_CRITERIA activity)).1)
          (scoreWind weather.windSpeedKph weather.windGustKph (ACTIVITY_CRITERIA activity)
            (if activity = ActivityKind.SURFING then weather.marineData else none)).1)
          (scoreSunshine weather.cloudCoverPct weather.sunshineHours
            (ACTIVITY_CRITERIA activity)).1)
          (scoreSpecialRequirements activity weather location).1))) := rfl

/-- Every day score lies in `[0, 100]`. -/
theorem dayScore_bounds (activity : ActivityKind) (weather : DailyWeatherData)
    (location : Option (ℚ × ℚ)) :
    0 ≤ (calculateDailyScore activity weather location).score ∧
      (calculateDailyScore activity weather location).score ≤ 100 := by
  rw [calculateDailyScore_score]
  exact round2_clamp_bounds _

/-- Bounds for the overall score given bounded daily scores. -/
theorem calculateOverallScore_bounds (ds : List DailyActivityScore)
    (h : ∀ d ∈ ds, 0 ≤ d.score ∧ d.score ≤ 100) :
    0 ≤ calculateOverallScore ds ∧ calculateOverallScore ds ≤ 100 := by
  rw [calculateOverallScore_eq]
  split
  · norm_num
  · rename_i hne
    obtain ⟨hs0, hs1⟩ := sum_scores_bounds ds h
    have hlen : 0 < (ds.length : ℚ) := by
      have : 0 < ds.length := Nat.pos_of_ne_zero hne
      exact_mod_cast this
    constructor
    · have h0 := le_round2 0 ((ds.map (fun d => d.score)).sum / ds.length)
        (by positivity)
      exact_mod_cast h0
    · have h1 := round2_le 100 ((ds.map (fun d => d.score)).sum / ds.length)
        (by rw [div_le_iff₀ hlen]; exact_mod_cast hs1)
      exact_mod_cast h1

/-- Membership in the output of `rankActivities` is membership in the list
of per-activity rankings built from the resolved activity list. -/
theorem mem_rankActivities {w : List DailyWeatherData}
    {acts : Option (List ActivityKind)} {l : Option (ℚ × ℚ)} {n : ℚ}
    {r : ActivityRanking} :
    r ∈ (rankActivities w acts l n).activities ↔
      ∃ a ∈ acts.getD activityKeys, buildRanking w l a = r := by
  simp [rankActivities, List.mem_mergeSort]

/-- A string append is non-empty once its first component is. -/
theorem length_pos_append (a b c : String) (h : 0 < a.length) :
    0 < (a ++ b ++ c).length := by
  rw [String.length_append, String.length_append]
  omega

/-- The temperature scorer pushes exactly one reason and it is non-empty. -/
theorem scoreTemperature_reason (temp : ℚ) (c : ActivityWeatherCriteria) :
    ∃ s, (scoreTemperature temp c).2 = [s] ∧ 0 < s.length := by
  simp only [scoreTemperature]
  split_ifs with h1 h2
  · exact ⟨_, rfl, length_pos_append _ _ _ (by decide)⟩
  · exact ⟨_, rfl, length_pos_append _ _ _ (by decide)⟩
  · exact ⟨_, rfl, length_pos_append _ _ _ (by decide)⟩

/-! ### Claim theorems -/

/-- C1: for every requested activity and weather day, the day's score is
the minimum of the five sub-scorer results, clamped to [0, 100] and
rounded to two decimal places. -/
theorem C1_dayScore_min_of_five (activity : ActivityKind)
    (weather : DailyWeatherData) (location : Option (ℚ × ℚ)) :
    (calculateDailyScore activity weather location).score =
      round2 (max 0 (min 100
        (min (min (min (min
          (scoreTemperature weather.meanTempC (ACTIVITY_CRITERIA activity)).1
          (scorePrecipitation weather.precipitationMm (ACTIVITY_CRITERIA activity)).1)
          (scoreWind weather.windSpeedKph weather.windGustKph (ACTIVITY_CRITERIA activity)
            (if activity = ActivityKind.SURFING then weather.marineData else none)).1)
          (scoreSunshine weather.cloudCoverPct weather.sunshineHours
            (ACTIVITY_CRITERIA activity)).1)
          (scoreSpecialRequirements activity weather location).1))) := by
  rw [calculateDailyScore_score, min100_chain]

/-- C5: the "dangerous large waves" band of `scoreWaveHeight` is dead code.
A 9 m maximum wave height is captured by the earlier `≥ 0.5` branch and
scores 40 with a "Small waves" reason, not 20 with the "dangerous" reason
the spec describes. -/
theorem C5_dangerous_band_unreachable :
    (scoreWaveHeight 9).1 = 40 ∧
      (scoreWaveHeight 9).2 = ["Small waves: " ++ toString (9:ℚ) ++ "m"] := by
  constructor <;> norm_num [scoreWaveHeight]

/-- C9: an explicitly empty requested-activity list yields zero rankings;
the default set of four activities is used only when the argument is
absent. -/
theorem C9_empty_activities_no_default (w : List DailyWeatherData)
    (l : Option (ℚ × ℚ)) (n : ℚ) :
    (rankActivities w (some []) l n).activities = [] ∧
      ((rankActivities w none l n).activities).length = 4 := by
  constructor
  · simp [rankActivities]
  · simp [rankActivities, activityKeys]

/-- C10: the reasons list of every computed daily score is non-empty: the
temperature scorer always pushes a non-empty reason, which survives the
empty-string filter of the day aggregator. -/
theorem C10_reasons_nonempty (activity : ActivityKind)
    (weather : DailyWeatherData) (location : Option (ℚ × ℚ)) :
    0 < (calculateDailyScore activity weather location).reasons.length := by
  obtain ⟨s, hs, hlen⟩ :=
    scoreTemperature_reason weather.meanTempC (ACTIVITY_CRITERIA activity)
  have hmem : s ∈ (calculateDailyScore activity weather location).reasons := by
    simp only [calculateDailyScore]
    refine List.mem_filter.mpr ⟨?_, decide_eq_true hlen⟩
    simp [hs]
  exact List.length_pos.mpr (List.ne_nil_of_mem hmem)

/-- C2: every day score and every overall score lies in `[0, 100]`. -/
theorem C2_scores_bounded :
    (∀ (activity : ActivityKind) (weather : DailyWeatherData)
       (location : Option (ℚ × ℚ)),
       0 ≤ (calculateDailyScore activity weather location).score ∧
       (calculateDailyScore activity weather location).score ≤ 100) ∧
    (∀ (w : List DailyWeatherData) (acts : Option (List ActivityKind))
       (l : Option (ℚ × ℚ)) (n : ℚ),
       ∀ r ∈ (rankActivities w acts l n).activities,
         0 ≤ r.overallScore ∧ r.overallScore ≤ 100) := by
  refine ⟨dayScore_bounds, ?_⟩
  intro w acts l n r hr
  obtain ⟨a, _, rfl⟩ := mem_rankActivities.mp hr
  have hdaily : ∀ d ∈ (buildRanking w l a).daily, 0 ≤ d.score ∧ d.score ≤ 100 := by
    intro d hd
    simp only [buildRanking] at hd
    obtain ⟨day, _, rfl⟩ := List.mem_map.mp hd
    exact dayScore_bounds a day l
  exact calculateOverallScore_bounds _ hdaily

/-- Witness for C2 at a concrete day and activity. -/
theorem C2_scores_bounded_witness :
    (0 ≤ (calculateDailyScore ActivityKind.SKIING exDay none).score ∧
       (calculateDailyScore ActivityKind.SKIING exDay none).score ≤ 100) ∧
    (0 ≤ (buildRanking [exDay] none ActivityKind.SKIING).overallScore ∧
       (buildRanking [exDay] none ActivityKind.SKIING).overallScore ≤ 100) := by
  refine ⟨C2_scores_bounded.1 ActivityKind.SKIING exDay none, ?_⟩
  exact C2_scores_bounded.2 [exDay] (some [ActivityKind.SKIING]) none 0 _
    (mem_rankActivities.mpr ⟨ActivityKind.SKIING, by simp, rfl⟩)

/-- C3: each activity's overallScore is the rounded mean of its daily
scores; with an empty weather list every overallScore is 0 (and the
embedding is a total function, so no exception can arise). -/
theorem C3_overallScore_mean :
    (∀ (w : List DailyWeatherData) (acts : Option (List ActivityKind))
       (l : Option (ℚ × ℚ)) (n : ℚ),
       ∀ r ∈ (rankActivities w acts l n).activities,
         r.overallScore =
           if r.daily.length = 0 then 0
           else round2 ((r.daily.map (fun d => d.score)).sum / r.daily.length)) ∧
    (∀ (acts : Option (List ActivityKind)) (l : Option (ℚ × ℚ)) (n : ℚ),
       ∀ r ∈ (rankActivities [] acts l n).activities, r.overallScore = 0) := by
  constructor
  · intro w acts l n r hr
    obtain ⟨a, _, rfl⟩ := mem_rankActivities.mp hr
    exact calculateOverallScore_eq _
  · intro acts l n r hr
    obtain ⟨a, _, rfl⟩ := mem_rankActivities.mp hr
    rfl

/-- Witness for C3 at a concrete day and at the empty weather list. -/
theorem C3_overallScore_mean_witness :
    ((buildRanking [exDay] none ActivityKind.SKIING).overallScore =
       if (buildRanking [exDay] none ActivityKind.SKIING).daily.length = 0 then 0
       else round2 ((((buildRanking [exDay] none ActivityKind.SKIING).daily.map
         (fun d => d.score)).sum) /
           (buildRanking [exDay] none ActivityKind.SKIING).daily.length)) ∧
    (buildRanking [] none ActivityKind.SKIING).overallScore = 0 := by
  constructor
  · exact C3_overallScore_mean.1 [exDay] (some [ActivityKind.SKIING]) none 0 _
      (mem_rankActivities.mpr ⟨ActivityKind.SKIING, by simp, rfl⟩)
  · exact C3_overallScore_mean.2 (some [ActivityKind.SKIING]) none 0 _
      (mem_rankActivities.mpr ⟨ActivityKind.SKIING, by simp, rfl⟩)

/-- `rankingLE` is transitive. -/
theorem rankingLE_trans : ∀ a b c : ActivityRanking,
    rankingLE a b → rankingLE b c → rankingLE a c := by
  intro a b c
  simp only [rankingLE, decide_eq_true_eq]
  exact fun h1 h2 => le_trans h2 h1

/-- `rankingLE` is total. -/
theorem rankingLE_total : ∀ a b : ActivityRanking,
    rankingLE a b || rankingLE b a := by
  intro a b
  simp only [rankingLE, Bool.or_eq_true, decide_eq_true_eq]
  exact le_total b.overallScore a.overallScore

/-- Stability of the sort: filtering the sorted rankings down to one
overallScore value yields exactly the same list as filtering the unsorted
rankings, in the same order. -/
theorem mergeSort_filter_score (L : List ActivityRanking) (q : ℚ) :
    (L.mergeSort rankingLE).filter (fun r => decide (r.overallScore = q)) =
      L.filter (fun r => decide (r.overallScore = q)) := by
  have hpair : (L.filter (fun r => decide (r.overallScore = q))).Pairwise
      (fun a b => rankingLE a b = true) := by
    refine List.pairwise_of_forall_mem_list ?_
    intro a ha b hb
    have h1 := of_decide_eq_true (List.mem_filter.mp ha).2
    have h2 := of_decide_eq_true (List.mem_filter.mp hb).2
    simp [rankingLE, h1, h2]
  have hsub : List.Sublist (L.filter (fun r => decide (r.overallScore = q)))
      (L.mergeSort rankingLE) :=
    List.sublist_mergeSort rankingLE_trans rankingLE_total hpair
      (List.filter_sublist L)
  have hself : (L.filter (fun r => decide (r.overallScore = q))).filter
      (fun r => decide (r.overallScore = q)) =
      L.filter (fun r => decide (r.overallScore = q)) :=
    List.filter_eq_self.mpr (fun a ha => (List.mem_filter.mp ha).2)
  have hsub2 := hsub.filter (fun r => decide (r.overallScore = q))
  rw [hself] at hsub2
  have hlen : (L.filter (fun r => decide (r.overallScore = q))).length =
      ((L.mergeSort rankingLE).filter
        (fun r => decide (r.overallScore = q))).length :=
    (((List.mergeSort_perm L rankingLE).filter _).length_eq).symm
  exact (hsub2.eq_of_length hlen).symm

/-- C4: the output ranking is sorted descending by overallScore, and
entries with equal overallScore keep their relative order from the
(resolved) input activity list. -/
theorem C4_ranking_sorted_stable (w : List DailyWeatherData)
    (acts : Option (List ActivityKind)) (l : Option (ℚ × ℚ)) (n : ℚ) :
    ((rankActivities w acts l n).activities).Pairwise
      (fun a b => b.overallScore ≤ a.overallScore) ∧
    ∀ q : ℚ,
      ((rankActivities w acts l n).activities).filter
          (fun r => decide (r.overallScore = q)) =
        ((acts.getD activityKeys).map (buildRanking w l)).filter
          (fun r => decide (r.overallScore = q)) := by
  constructor
  · have hs := List.sorted_mergeSort rankingLE_trans rankingLE_total
      ((acts.getD activityKeys).map (buildRanking w l))
    have heq : (rankActivities w acts l n).activities =
        ((acts.getD activityKeys).map (buildRanking w l)).mergeSort rankingLE := rfl
    rw [heq]
    exact hs.imp (fun h => of_decide_eq_true h)
  · intro q
    exact mergeSort_filter_score _ q

/-- C6 (counterexample): with an empty weather list the period of the
result is the wall-clock value read at call time, so two calls with
identical weather, activities and location can differ. -/
theorem C6_wallclock_counterexample :
    rankActivities [] (some [ActivityKind.SKIING]) none 0 ≠
      rankActivities [] (some [ActivityKind.SKIING]) none 1 := by
  intro h
  have hp := congrArg RankedActivitiesResult.period h
  simp [rankActivities] at hp

/-- C6 (amended): the activities and location components never depend on
the clock, and for non-empty weather data the whole output is identical
across calls — `rankActivities` is deterministic in its declared inputs. -/
theorem C6_deterministic_amended (w : List DailyWeatherData)
    (acts : Option (List ActivityKind)) (l : Option (ℚ × ℚ)) (n1 n2 : ℚ) :
    ((rankActivities w acts l n1).activities =
        (rankActivities w acts l n2).activities ∧
      (rankActivities w acts l n1).location =
        (rankActivities w acts l n2).location) ∧
    (w ≠ [] → rankActivities w acts l n1 = rankActivities w acts l n2) := by
  refine ⟨⟨rfl, rfl⟩, ?_⟩
  intro hw
  obtain ⟨x, hx⟩ := Option.isSome_iff_exists.mp (List.head?_isSome.mpr hw)
  obtain ⟨y, hy⟩ := Option.isSome_iff_exists.mp (List.getLast?_isSome.mpr hw)
  simp [rankActivities, hx, hy]

/-- Witness for the amended C6 at a one-day weather list. -/
theorem C6_deterministic_amended_witness :
    ([exDay] ≠ ([] : List DailyWeatherData)) ∧
      rankActivities [exDay] (some [ActivityKind.SKIING]) none 0 =
        rankActivities [exDay] (some [ActivityKind.SKIING]) none 1 :=
  ⟨by simp,
   (C6_deterministic_amended [exDay] (some [ActivityKind.SKIING]) none 0 1).2
     (by simp)⟩

/-- C7: when the ideal range coincides with the acceptable range, the
temperature scorer either takes the ideal branch (score 100) or the
out-of-range branch; the interpolation branch that divides by
`maxDistance` is never executed, so no division by zero occurs. -/
theorem C7_degenerate_range_no_division (temp : ℚ)
    (criteria : ActivityWeatherCriteria)
    (h : criteria.idealTempRange = criteria.acceptableTempRange) :
    scoreTemperature temp criteria =
      if temp ≥ criteria.idealTempRange.1 ∧ temp ≤ criteria.idealTempRange.2 then
        (100, ["Ideal temperature: " ++ toString temp ++ "C"])
      else
        (max 0 (40 - |temp - (criteria.idealTempRange.1 +
            criteria.idealTempRange.2) / 2| * 2),
         ["Poor temperature: " ++ toString temp ++ "C (outside acceptable range)"]) := by
  simp only [scoreTemperature, ← h]
  split_ifs with h1
  · rfl
  · rfl

/-- Witness for C7 at a concrete degenerate criteria record. -/
theorem C7_degenerate_range_witness :
    (exCriteriaDegenerate.idealTempRange =
        exCriteriaDegenerate.acceptableTempRange) ∧
      scoreTemperature 20 exCriteriaDegenerate =
        (if (20:ℚ) ≥ exCriteriaDegenerate.idealTempRange.1 ∧
            (20:ℚ) ≤ exCriteriaDegenerate.idealTempRange.2 then
          (100, ["Ideal temperature: " ++ toString (20:ℚ) ++ "C"])
        else
          (max 0 (40 - |20 - (exCriteriaDegenerate.idealTempRange.1 +
              exCriteriaDegenerate.idealTempRange.2) / 2| * 2),
           ["Poor temperature: " ++ toString (20:ℚ) ++
             "C (outside acceptable range)"])) :=
  ⟨rfl, C7_degenerate_range_no_division 20 exCriteriaDegenerate rfl⟩

/-- C8 (counterexample): the spec scenario fields alone do not bound the
day score from below — an extreme wind gust on such a day drives the
Skiing score to 0. -/
theorem C8_gusty_counterexample :
    exDayGusty.meanTempC = -5 ∧ exDayGusty.snowfallCm = 10 ∧
      exDayGusty.windSpeedKph = 5 ∧
      (calculateDailyScore ActivityKind.SKIING exDayGusty none).score < 85 := by
  refine ⟨rfl, rfl, rfl, ?_⟩
  rw [calculateDailyScore_score]
  norm_num [scoreTemperature, scorePrecipitation, scoreWind, scoreSunshine,
    scoreSpecialRequirements, ACTIVITY_CRITERIA, exDayGusty, exDay,
    round2, jsRound, min_def, max_def]

/-- The score component of `scoreSunshine` as a closed formula. -/
theorem scoreSunshine_score (cloudCover sunshineHours : ℚ)
    (c : ActivityWeatherCriteria) :
    (scoreSunshine cloudCover sunshineHours c).1 =
      max 0 (100 -
        (if sunshineHours < c.minSunshineHours then
          (c.minSunshineHours - sunshineHours) * 15 else 0) -
        (if cloudCover < c.idealCloudCover.1 ∨ cloudCover > c.idealCloudCover.2 then
          min |cloudCover - c.idealCloudCover.1| |cloudCover - c.idealCloudCover.2| * 0.5
        else 0)) := by
  simp only [scoreSunshine]
  split_ifs <;> rfl

/-- The clamped-and-rounded score keeps integer lower bounds below 100. -/
theorem round2_clamp_ge (n : ℤ) (x : ℚ) (hn : (n:ℚ) ≤ 100) (h : (n:ℚ) ≤ x) :
    (n:ℚ) ≤ round2 (max 0 (min 100 x)) :=
  le_round2 n _ (le_trans (le_min hn h) (le_max_right _ _))

/-- C8 (amended): with meanTempC = -5, snowfallCm = 10, windSpeedKph = 5,
and the remaining fields constrained exactly as far as the counterexample
forces — gusts at most 47.5 km/h, precipitation at most 7.125 mm, and the
sunshine/cloud deductions totalling at most 15 points — the Skiing day
score is at least 85. -/
theorem C8_skiing_high_amended (weather : DailyWeatherData)
    (ht : weather.meanTempC = -5) (hs : weather.snowfallCm = 10)
    (hw : weather.windSpeedKph = 5) (hg : weather.windGustKph ≤ 47.5)
    (hp : weather.precipitationMm ≤ 7.125)
    (hsun : (if weather.sunshineHours < 2 then
          (2 - weather.sunshineHours) * 15 else 0) +
        (if weather.cloudCoverPct < 30 ∨ weather.cloudCoverPct > 80 then
          min |weather.cloudCoverPct - 30| |weather.cloudCoverPct - 80| * 0.5
        else 0) ≤ 15) :
    85 ≤ (calculateDailyScore ActivityKind.SKIING weather none).score := by
  have hT : (scoreTemperature weather.meanTempC
      (ACTIVITY_CRITERIA ActivityKind.SKIING)).1 = 100 := by
    rw [ht]
    norm_num [scoreTemperature, ACTIVITY_CRITERIA]
  have hSp : (scoreSpecialRequirements ActivityKind.SKIING weather none).1 = 100 := by
    simp only [scoreSpecialRequirements, hs]
    norm_num
  have hP : (85:ℚ) ≤ (scorePrecipitation weather.precipitationMm
      (ACTIVITY_CRITERIA ActivityKind.SKIING)).1 := by
    simp only [scorePrecipitation, ACTIVITY_CRITERIA]
    split_ifs with h1 h0 h2
    · norm_num
    · norm_num
    · show (85:ℚ) ≤ 100 - (weather.precipitationMm - 15 / 4) / (15 * 0.75) * 50
      have hkey : (weather.precipitationMm - 15 / 4) / (15 * 0.75) * 50 ≤ 15 := by
        rw [div_mul_eq_mul_div, div_le_iff₀ (by norm_num : (0:ℚ) < 15 * 0.75)]
        nlinarith [hp]
      linarith
    · exfalso
      push_neg at h2
      nlinarith [hp]
  have hW : (85:ℚ) ≤ (scoreWind weather.windSpeedKph weather.windGustKph
      (ACTIVITY_CRITERIA ActivityKind.SKIING) none).1 := by
    rw [hw]
    simp only [scoreWind, ACTIVITY_CRITERIA]
    split_ifs with h1 h2 h3
    · exfalso
      norm_num at h1
    · show (85:ℚ) ≤ max 0 (100 - (weather.windGustKph - 40) * 2)
      refine le_trans ?_ (le_max_right _ _)
      nlinarith [hg]
    · norm_num
    · exfalso
      norm_num at h3
  have hSu : (85:ℚ) ≤ (scoreSunshine weather.cloudCoverPct weather.sunshineHours
      (ACTIVITY_CRITERIA ActivityKind.SKIING)).1 := by
    rw [scoreSunshine_score]
    simp only [ACTIVITY_CRITERIA]
    refine le_trans ?_ (le_max_right _ _)
    split_ifs at hsun ⊢ <;> linarith
  have hif : (if ActivityKind.SKIING = ActivityKind.SURFING then
      weather.marineData else none) = none := rfl
  rw [calculateDailyScore_score, hif]
  have hchain : (85:ℚ) ≤ min (min (min (min (min 100
      (scoreTemperature weather.meanTempC (ACTIVITY_CRITERIA ActivityKind.SKIING)).1)
      (scorePrecipitation weather.precipitationMm (ACTIVITY_CRITERIA ActivityKind.SKIING)).1)
      (scoreWind weather.windSpeedKph weather.windGustKph
        (ACTIVITY_CRITERIA ActivityKind.SKIING) none).1)
      (scoreSunshine weather.cloudCoverPct weather.sunshineHours
        (ACTIVITY_CRITERIA ActivityKind.SKIING)).1)
      (scoreSpecialRequirements ActivityKind.SKIING weather none).1 := by
    rw [hT, hSp]
    exact le_min (le_min (le_min (le_min (by norm_num) hP) hW) hSu) (by norm_num)
  have h85 := round2_clamp_ge 85 _ (by norm_num) (by push_cast; exact hchain)
  exact_mod_cast h85

/-- Witness for the amended C8 at a concrete mildly adverse day. -/
theorem C8_skiing_high_amended_witness :
    exDayMild.meanTempC = -5 ∧ exDayMild.snowfallCm = 10 ∧
      exDayMild.windSpeedKph = 5 ∧ exDayMild.windGustKph ≤ 47.5 ∧
      exDayMild.precipitationMm ≤ 7.125 ∧
      ((if exDayMild.sunshineHours < 2 then
          (2 - exDayMild.sunshineHours) * 15 else 0) +
        (if exDayMild.cloudCoverPct < 30 ∨ exDayMild.cloudCoverPct > 80 then
          min |exDayMild.cloudCoverPct - 30| |exDayMild.cloudCoverPct - 80| * 0.5
        else 0) ≤ 15) ∧
      85 ≤ (calculateDailyScore ActivityKind.SKIING exDayMild none).score :=
  ⟨rfl, rfl, rfl, by norm_num [exDayMild, exDay], by norm_num [exDayMild, exDay],
   by norm_num [exDayMild, exDay],
   C8_skiing_high_amended exDayMild rfl rfl rfl
     (by norm_num [exDayMild, exDay]) (by norm_num [exDayMild, exDay])
     (by norm_num [exDayMild, exDay])⟩

end PlanMyWeek
